import Mathlib

/-!
Shallow embedding of the strategy validation/execution pipeline of this
repository (src/validation_module/strategy_validator.py and
src/strategy_execution.py), together with proofs of the specified
properties.

Python dictionary values that occur in this code base are modelled by
`PyValue`: strings, numbers (Python ints, floats and bools are merged
into one exact numeric constructor `num` over `ℚ`; float rounding is
outside the scope of this model) and `none` standing for `None` and any
other non-numeric, non-string object (for which `float(...)` raises
`TypeError` and ordering comparisons raise `TypeError`, exactly as for
`None`).  Exceptions are modelled with `Except` over the `PyExc` type.
-/

/-- Model of the Python values a strategy dictionary can hold. -/
inductive PyValue where
  | str (s : String)
  | num (q : ℚ)
  | none
deriving DecidableEq

/-- Python truthiness of a value: empty string, zero and `None` are falsy. -/
def truthy : PyValue → Bool
  | .str s => s ≠ ""
  | .num q => q ≠ 0
  | .none => false

/-- Model of the Python exceptions this code can raise or catch. -/
inductive PyExc where
  | valueError (msg : String)
  | typeError (msg : String)
  | assertionError
  | keyError (k : String)
  | other (msg : String)
deriving DecidableEq

/-- `str(e)` as used by the `%s` log formatting of the source. -/
def excMsg : PyExc → String
  | .valueError m => m
  | .typeError m => m
  | .assertionError => ""
  | .keyError k => k
  | .other m => m

/-- A strategy dictionary: an association list of string keys to values;
its meaning is its lookup function (`sget`). -/
abbrev Strategy : Type := List (String × PyValue)

/-- Dictionary lookup (first binding wins), i.e. `strategy.get(k, None)`
returns `(sget s k).getD .none` and `k in strategy` is `(sget s k).isSome`. -/
def sget (s : Strategy) (k : String) : Option PyValue :=
  match s with
  | [] => Option.none
  | (k₁, v) :: rest => if k₁ = k then some v else sget rest k

/-- Accumulate decimal digits into a natural number. -/
def digitsToNat (l : List Char) : ℕ :=
  l.foldl (fun a c => 10 * a + (c.toNat - Char.toNat '0')) 0

/-- Assemble the rational value of a parsed decimal literal:
sign, integer digits, fraction digits, exponent sign and exponent digits.
The value is `±(digits of ip ++ fp) · 10^(±ed) / 10^(length of fp)`. -/
def assembleRat (neg : Bool) (ip fp : List Char) (eneg : Bool) (ed : ℕ) : ℚ :=
  let mant : ℤ := (digitsToNat (ip ++ fp) : ℤ)
  let mant : ℤ := if neg then -mant else mant
  if eneg then mkRat mant (10 ^ (fp.length + ed))
  else mkRat (mant * ((10 ^ ed : ℕ) : ℤ)) (10 ^ fp.length)

/-- Parse an optional sign from a character list. Returns (negative?, rest). -/
def parseSign : List Char → Bool × List Char
  | '-' :: rest => (true, rest)
  | '+' :: rest => (false, rest)
  | l => (false, l)

/-- Parse the exponent part (after the mantissa) and the trailing
whitespace; `Option.none` when the remainder is not a well-formed tail. -/
def parseExpTail : List Char → Option (Bool × ℕ)
  | [] => some (false, 0)
  | 'e' :: rest =>
    let (en, r₁) := parseSign rest
    let ds := r₁.takeWhile Char.isDigit
    let r₂ := r₁.dropWhile Char.isDigit
    if ds.isEmpty then Option.none
    else if r₂.all Char.isWhitespace then some (en, digitsToNat ds) else Option.none
  | 'E' :: rest =>
    let (en, r₁) := parseSign rest
    let ds := r₁.takeWhile Char.isDigit
    let r₂ := r₁.dropWhile Char.isDigit
    if ds.isEmpty then Option.none
    else if r₂.all Char.isWhitespace then some (en, digitsToNat ds) else Option.none
  | l => if l.all Char.isWhitespace then some (false, 0) else Option.none

/-- Model of Python `float(s)` on a string: accepts optionally signed
finite decimal literals with optional fraction and exponent, surrounded
by whitespace.  (Python's `inf`/`nan`/underscore/hex forms are outside
the scope of this model; no claim involves them.) -/
def parseFloat (s : String) : Option ℚ :=
  let l := s.toList.dropWhile Char.isWhitespace
  let (neg, l₁) := parseSign l
  let ip := l₁.takeWhile Char.isDigit
  let l₂ := l₁.dropWhile Char.isDigit
  match l₂ with
  | '.' :: l₃ =>
    let fp := l₃.takeWhile Char.isDigit
    let l₄ := l₃.dropWhile Char.isDigit
    if ip.isEmpty ∧ fp.isEmpty then Option.none
    else match parseExpTail l₄ with
      | some (en, ed) => some (assembleRat neg ip fp en ed)
      | Option.none => Option.none
  | _ =>
    if ip.isEmpty then Option.none
    else match parseExpTail l₂ with
      | some (en, ed) => some (assembleRat neg ip [] en ed)
      | Option.none => Option.none

/-- Model of Python `float(v)`: numbers convert, strings are parsed
(`ValueError` on parse failure), anything else raises `TypeError`. -/
def pyFloat : PyValue → Except PyExc ℚ
  | .num q => .ok q
  | .str s =>
    match parseFloat s with
    | some q => .ok q
    | Option.none => .error (.valueError ("could not convert string to float: " ++ s))
  | .none => .error (.typeError "float() argument must be a string or a real number")

/-- Model of the chained comparison `0 <= v <= 1`: defined for numbers,
`TypeError` for strings and `None`. -/
def pyLeZeroOne : PyValue → Except PyExc Bool
  | .num q => .ok (decide (0 ≤ q ∧ q ≤ 1))
  | .str _ => .error (.typeError "ordering comparison not supported between int and str")
  | .none => .error (.typeError "ordering comparison not supported between int and NoneType")

/-- Model of `strategy[k]`: `KeyError` when the key is absent. -/
def dictIndex (s : Strategy) (k : String) : Except PyExc PyValue :=
  match sget s k with
  | some v => .ok v
  | Option.none => .error (.keyError k)

/-- Modelled from the spec: `StrategyValidationResult` is defined in
`validation_module` code that is not under src/; the spec describes it as
the immutable pair `(is_valid, error_message)`. -/
structure StrategyValidationResult where
  is_valid : Bool
  error_message : String
deriving DecidableEq

/-- `StrategyValidator._has_required_fields`: the four required keys must
all be present. -/
def has_required_fields (s : Strategy) : Bool :=
  ["symbol", "entry_point", "exit_point", "risk_tolerance"].all
    (fun k => (sget s k).isSome)

/-- The `try` body of `_validate_data_types`: evaluate
`float(strategy[entry_point])`, `float(strategy[exit_point])` and
`assert 0 <= strategy[risk_tolerance] <= 1` in order, propagating the
first exception. -/
def vdtBody (s : Strategy) : Except PyExc Bool :=
  match dictIndex s "entry_point" with
  | .error e => .error e
  | .ok ep =>
    match pyFloat ep with
    | .error e => .error e
    | .ok _ =>
      match dictIndex s "exit_point" with
      | .error e => .error e
      | .ok xp =>
        match pyFloat xp with
        | .error e => .error e
        | .ok _ =>
          match dictIndex s "risk_tolerance" with
          | .error e => .error e
          | .ok rt =>
            match pyLeZeroOne rt with
            | .error e => .error e
            | .ok true => .ok true
            | .ok false => .error .assertionError

/-- `StrategyValidator._validate_data_types`: run the `try` body;
`ValueError` and `AssertionError` are caught and give `False`; any other
exception propagates. -/
def validate_data_types (s : Strategy) : Except PyExc Bool :=
  match vdtBody s with
  | .ok b => .ok b
  | .error (.valueError _) => .ok false
  | .error .assertionError => .ok false
  | .error e => .error e

/-- The body of `StrategyValidator.validate` (the three checks in order,
short-circuiting).  The risk predicate `assess_risk` is a parameter:
`_assess_risk` is a stub whose body is not in the source; the spec calls
it a pluggable predicate over the strategy. -/
def validateCore (assess_risk : Strategy → Except PyExc Bool) (s : Strategy) :
    Except PyExc StrategyValidationResult :=
  if ¬ has_required_fields s then
    .ok ⟨false, "Missing required fields in strategy."⟩
  else
    match validate_data_types s with
    | .error e => .error e
    | .ok false => .ok ⟨false, "Data type validation failed."⟩
    | .ok true =>
      match assess_risk s with
      | .error e => .error e
      | .ok false => .ok ⟨false, "Strategy poses too high a risk."⟩
      | .ok true => .ok ⟨true, ""⟩

/-- `StrategyValidator.validate` with its outer `try/except`: an
exception from the body is logged (`"Validation error: %s"`) and
re-raised.  Returns the result together with the log lines emitted. -/
def validate (assess_risk : Strategy → Except PyExc Bool) (s : Strategy) :
    Except PyExc StrategyValidationResult × List String :=
  match validateCore assess_risk s with
  | .ok r => (.ok r, [])
  | .error e => (.error e, ["Validation error: " ++ excMsg e])

/-- `ExecutionParams`: the record built by `_prepare_execution_params`. -/
structure ExecutionParams where
  symbol : PyValue
  entry_point : PyValue
  exit_point : PyValue
  execution_time : String
deriving DecidableEq

/-- `StrategyExecution._prepare_execution_params`: `.get` the three keys
with default `None`; raise `ValueError` unless all three are truthy;
otherwise build the record stamped with `datetime.now().isoformat()`
(the current time is the parameter `now`). -/
def prepare_execution_params (now : String) (s : Strategy) :
    Except PyExc ExecutionParams :=
  let symbol := (sget s "symbol").getD .none
  let entry_point := (sget s "entry_point").getD .none
  let exit_point := (sget s "exit_point").getD .none
  if truthy symbol && truthy entry_point && truthy exit_point then
    .ok ⟨symbol, entry_point, exit_point, now⟩
  else
    .error (.valueError "Missing required parameters in strategy.")

instance {ε α : Type} [DecidableEq ε] [DecidableEq α] : DecidableEq (Except ε α) := fun a b =>
  match a, b with
  | .ok x, .ok y => if h : x = y then .isTrue (by rw [h]) else .isFalse (by simp [h])
  | .error x, .error y => if h : x = y then .isTrue (by rw [h]) else .isFalse (by simp [h])
  | .ok _, .error _ => .isFalse (by simp)
  | .error _, .ok _ => .isFalse (by simp)

/-- Observable outcome of one `execute_strategy` call: the returned value
or propagated exception, the parameter records constructed, the calls
made to the external execution sink, and the log lines emitted. -/
structure ExecOutcome where
  result : Except PyExc Bool
  prepared : List ExecutionParams
  sinkCalls : List ExecutionParams
  logs : List String
deriving DecidableEq

/-- `StrategyExecution.execute_strategy`: validate, short-circuit with
`False` on an invalid result, otherwise prepare parameters and call the
external sink (`TradeExecutor.execute` is not under src/ and the spec
specifies it only as an opaque sink that may raise; it is the parameter
`sink`); the outer `try/except` logs any exception and re-raises it. -/
def execute_strategy (assess_risk : Strategy → Except PyExc Bool)
    (sink : ExecutionParams → Except PyExc Unit) (now : String)
    (s : Strategy) : ExecOutcome :=
  match validate assess_risk s with
  | (.error e, vlogs) =>
    ⟨.error e, [], [], vlogs ++ ["Exception occurred during strategy execution: " ++ excMsg e]⟩
  | (.ok r, vlogs) =>
    if ¬ r.is_valid then
      ⟨.ok false, [], [], vlogs ++ ["Strategy validation failed. " ++ r.error_message]⟩
    else
      match prepare_execution_params now s with
      | .error e =>
        ⟨.error e, [], [], vlogs ++ ["Exception occurred during strategy execution: " ++ excMsg e]⟩
      | .ok p =>
        match sink p with
        | .error e =>
          ⟨.error e, [p], [p], vlogs ++ ["Exception occurred during strategy execution: " ++ excMsg e]⟩
        | .ok _ =>
          ⟨.ok true, [p], [p], vlogs ++ ["Executed strategy successfully at " ++ now ++ "."]⟩

/-!
Mutation-tracking variants.  For the frame property ("the input strategy
dictionary is not mutated") every dictionary operation the source
performs is threaded through an explicit dictionary state.  The source
performs only read operations (`in`, `[...]`, `.get`), each of which
returns the dictionary unchanged; the theorems below show the final
dictionary equals the initial one on every path.
-/

/-- A dictionary read (`k in s`, `s[k]`, `s.get(k)`) threaded through the
dictionary state. -/
def sgetT (s : Strategy) (k : String) : Option PyValue × Strategy :=
  (sget s k, s)

/-- `_has_required_fields` with the dictionary state threaded through its
four membership tests. -/
def has_required_fieldsT (s : Strategy) : Bool × Strategy :=
  let (o₁, s₁) := sgetT s "symbol"
  let (o₂, s₂) := sgetT s₁ "entry_point"
  let (o₃, s₃) := sgetT s₂ "exit_point"
  let (o₄, s₄) := sgetT s₃ "risk_tolerance"
  (o₁.isSome && o₂.isSome && o₃.isSome && o₄.isSome, s₄)

/-- `strategy[k]` with the dictionary state threaded through. -/
def dictIndexT (s : Strategy) (k : String) : Except PyExc PyValue × Strategy :=
  let (o, s₁) := sgetT s k
  (match o with
   | some v => .ok v
   | Option.none => .error (.keyError k), s₁)

/-- The `try` body of `_validate_data_types` with the dictionary state
threaded through. -/
def vdtBodyT (s : Strategy) : Except PyExc Bool × Strategy :=
  let (r₁, s₁) := dictIndexT s "entry_point"
  match r₁ with
  | .error e => (.error e, s₁)
  | .ok ep =>
    match pyFloat ep with
    | .error e => (.error e, s₁)
    | .ok _ =>
      let (r₂, s₂) := dictIndexT s₁ "exit_point"
      match r₂ with
      | .error e => (.error e, s₂)
      | .ok xp =>
        match pyFloat xp with
        | .error e => (.error e, s₂)
        | .ok _ =>
          let (r₃, s₃) := dictIndexT s₂ "risk_tolerance"
          match r₃ with
          | .error e => (.error e, s₃)
          | .ok rt =>
            match pyLeZeroOne rt with
            | .error e => (.error e, s₃)
            | .ok true => (.ok true, s₃)
            | .ok false => (.error .assertionError, s₃)

/-- `_validate_data_types` with the dictionary state threaded through. -/
def validate_data_typesT (s : Strategy) : Except PyExc Bool × Strategy :=
  let (body, s₁) := vdtBodyT s
  (match body with
   | .ok b => .ok b
   | .error (.valueError _) => .ok false
   | .error .assertionError => .ok false
   | .error e => .error e, s₁)

/-- `StrategyValidator.validate` with the dictionary state threaded
through all three checks (the risk predicate is a pure predicate over
the dictionary, per the spec). -/
def validateT (assess_risk : Strategy → Except PyExc Bool) (s : Strategy) :
    Except PyExc StrategyValidationResult × Strategy :=
  let (hf, s₁) := has_required_fieldsT s
  if ¬ hf then (.ok ⟨false, "Missing required fields in strategy."⟩, s₁)
  else
    let (vdt, s₂) := validate_data_typesT s₁
    match vdt with
    | .error e => (.error e, s₂)
    | .ok false => (.ok ⟨false, "Data type validation failed."⟩, s₂)
    | .ok true =>
      match assess_risk s₂ with
      | .error e => (.error e, s₂)
      | .ok false => (.ok ⟨false, "Strategy poses too high a risk."⟩, s₂)
      | .ok true => (.ok ⟨true, ""⟩, s₂)

/-- `_prepare_execution_params` with the dictionary state threaded
through its three `.get` calls. -/
def prepare_execution_paramsT (now : String) (s : Strategy) :
    Except PyExc ExecutionParams × Strategy :=
  let (o₁, s₁) := sgetT s "symbol"
  let (o₂, s₂) := sgetT s₁ "entry_point"
  let (o₃, s₃) := sgetT s₂ "exit_point"
  let symbol := o₁.getD .none
  let entry_point := o₂.getD .none
  let exit_point := o₃.getD .none
  (if truthy symbol && truthy entry_point && truthy exit_point then
    .ok ⟨symbol, entry_point, exit_point, now⟩
  else
    .error (.valueError "Missing required parameters in strategy."), s₃)

/-- `execute_strategy` with the dictionary state threaded through the
validator and the parameter preparation (the external sink never sees
the dictionary, only the prepared record). -/
def execute_strategyT (assess_risk : Strategy → Except PyExc Bool)
    (sink : ExecutionParams → Except PyExc Unit) (now : String)
    (s : Strategy) : ExecOutcome × Strategy :=
  let (vres, s₁) := validateT assess_risk s
  match vres with
  | .error e =>
    (⟨.error e, [], [], ["Validation error: " ++ excMsg e,
      "Exception occurred during strategy execution: " ++ excMsg e]⟩, s₁)
  | .ok r =>
    if ¬ r.is_valid then
      (⟨.ok false, [], [], ["Strategy validation failed. " ++ r.error_message]⟩, s₁)
    else
      let (pres, s₂) := prepare_execution_paramsT now s₁
      match pres with
      | .error e =>
        (⟨.error e, [], [], ["Exception occurred during strategy execution: " ++ excMsg e]⟩, s₂)
      | .ok p =>
        match sink p with
        | .error e =>
          (⟨.error e, [p], [p], ["Exception occurred during strategy execution: " ++ excMsg e]⟩, s₂)
        | .ok _ =>
          (⟨.ok true, [p], [p], ["Executed strategy successfully at " ++ now ++ "."]⟩, s₂)

/-!
Concrete fixtures used by the witness and counterexample theorems: a
risk predicate that accepts every strategy (the source's `_assess_risk`
is a stub; the spec treats it as pluggable), one that raises, a sink
that always succeeds, and the spec's example strategies.
-/

/-- A risk predicate accepting every strategy. -/
def arAccept : Strategy → Except PyExc Bool := fun _ => .ok true

/-- A risk predicate that raises an internal exception. -/
def arRaise : Strategy → Except PyExc Bool := fun _ => .error (.other "boom")

/-- An execution sink that always succeeds. -/
def sinkOk : ExecutionParams → Except PyExc Unit := fun _ => .ok ()

/-- An execution sink that always raises. -/
def sinkBoom : ExecutionParams → Except PyExc Unit := fun _ => .error (.other "sink down")

/-- The spec's happy-path scenario strategy. -/
def sAAPL : Strategy :=
  [("symbol", .str "AAPL"), ("entry_point", .str "100.0"),
   ("exit_point", .str "110.0"), ("risk_tolerance", .num (mkRat 3 10))]

/-- The spec's scenario strategy missing `risk_tolerance`. -/
def sMissing : Strategy :=
  [("symbol", .str "AAPL"), ("entry_point", .str "100.0"),
   ("exit_point", .str "110.0")]

/-- The spec's scenario strategy with a non-numeric `entry_point`. -/
def sAbc : Strategy :=
  [("symbol", .str "AAPL"), ("entry_point", .str "abc"),
   ("exit_point", .str "110.0"), ("risk_tolerance", .num (mkRat 3 10))]

/-- A strategy whose `entry_point` is the number `0`: valid to the
validator, falsy to the parameter preparation. -/
def sZeroEntry : Strategy :=
  [("symbol", .str "AAPL"), ("entry_point", .num 0),
   ("exit_point", .num 110), ("risk_tolerance", .num (mkRat 3 10))]

/-- A strategy whose `symbol` is the empty string: valid to the
validator, falsy to the parameter preparation. -/
def sEmptySymbol : Strategy :=
  [("symbol", .str ""), ("entry_point", .str "100.0"),
   ("exit_point", .str "110.0"), ("risk_tolerance", .num (mkRat 3 10))]

/-- A strategy whose `entry_point` is `None`: all four keys present, but
`float(None)` raises `TypeError`, which `_validate_data_types` does not
catch. -/
def sNoneEntry : Strategy :=
  [("symbol", .str "AAPL"), ("entry_point", .none),
   ("exit_point", .str "110.0"), ("risk_tolerance", .num (mkRat 3 10))]

/-- `sAAPL` with an extra shadowed binding: a different association list
with exactly the same lookup function. -/
def sAAPLShadow : Strategy :=
  sAAPL ++ [("symbol", .num 0)]

/-- The predicate "the key is absent from the strategy, or present with
a falsy value" from the specification of `_prepare_execution_params`. -/
def absentOrFalsy (s : Strategy) (k : String) : Prop :=
  sget s k = Option.none ∨ ∃ v, sget s k = some v ∧ truthy v = false

/-- Claim C1 -/
theorem invalid_validation_short_circuits
    (ar : Strategy → Except PyExc Bool) (sink : ExecutionParams → Except PyExc Unit)
    (now : String) (s : Strategy) (r : StrategyValidationResult)
    (hv : validateCore ar s = .ok r) (hinv : r.is_valid = false) :
    (execute_strategy ar sink now s).result = .ok false ∧
    (execute_strategy ar sink now s).sinkCalls = [] ∧
    ("Strategy validation failed. " ++ r.error_message) ∈ (execute_strategy ar sink now s).logs := by
  unfold execute_strategy validate
  rw [hv]
  simp [hinv]

/-- Claim C4 -/
theorem missing_field_gives_missing_fields_message
    (ar : Strategy → Except PyExc Bool) (s : Strategy)
    (h : sget s "symbol" = Option.none ∨ sget s "entry_point" = Option.none ∨
         sget s "exit_point" = Option.none ∨ sget s "risk_tolerance" = Option.none) :
    validateCore ar s = .ok ⟨false, "Missing required fields in strategy."⟩ := by
  have hf : has_required_fields s = false := by
    simp only [has_required_fields, List.all_cons, List.all_nil, Bool.and_true]
    rcases h with h | h | h | h <;> simp [h]
  simp [validateCore, hf]

/-- Claim C4 witness -/
theorem missing_field_gives_missing_fields_message_witness :
    sget sMissing "risk_tolerance" = Option.none ∧
    validateCore arAccept sMissing = .ok ⟨false, "Missing required fields in strategy."⟩ :=
  ⟨by decide, missing_field_gives_missing_fields_message arAccept sMissing
    (Or.inr (Or.inr (Or.inr (by decide))))⟩

/-- Claim C10 -/
theorem validator_accepted_falsy_strategy_raises :
    (validateCore arAccept sEmptySymbol = .ok ⟨true, ""⟩ ∧
     (execute_strategy arAccept sinkOk "T" sEmptySymbol).result =
       .error (.valueError "Missing required parameters in strategy.") ∧
     (execute_strategy arAccept sinkOk "T" sEmptySymbol).sinkCalls = []) ∧
    (validateCore arAccept sZeroEntry = .ok ⟨true, ""⟩ ∧
     (execute_strategy arAccept sinkOk "T" sZeroEntry).result =
       .error (.valueError "Missing required parameters in strategy.") ∧
     (execute_strategy arAccept sinkOk "T" sZeroEntry).sinkCalls = []) := by
  decide

/-- Claim C1 witness -/
theorem invalid_validation_short_circuits_witness :
    validateCore arAccept sMissing = .ok ⟨false, "Missing required fields in strategy."⟩ ∧
    (execute_strategy arAccept sinkOk "T" sMissing).result = .ok false ∧
    (execute_strategy arAccept sinkOk "T" sMissing).sinkCalls = [] ∧
    ("Strategy validation failed. " ++ "Missing required fields in strategy.") ∈
      (execute_strategy arAccept sinkOk "T" sMissing).logs :=
  ⟨by decide, invalid_validation_short_circuits arAccept sinkOk "T" sMissing
    ⟨false, "Missing required fields in strategy."⟩ (by decide) rfl⟩

/-- Claim C2 counterexample -/
theorem passing_validation_zero_entry_not_executed :
    validateCore arAccept sZeroEntry = .ok ⟨true, ""⟩ ∧
    (execute_strategy arAccept sinkOk "T" sZeroEntry).sinkCalls = [] ∧
    (execute_strategy arAccept sinkOk "T" sZeroEntry).result ≠ .ok true := by
  decide

/-- Claim C2 amended -/
theorem valid_truthy_strategy_executes_once
    (ar : Strategy → Except PyExc Bool) (sink : ExecutionParams → Except PyExc Unit)
    (now : String) (s : Strategy)
    (hf : has_required_fields s = true)
    (hd : validate_data_types s = .ok true)
    (hr : ar s = .ok true)
    (hsy : truthy ((sget s "symbol").getD .none) = true)
    (hep : truthy ((sget s "entry_point").getD .none) = true)
    (hxp : truthy ((sget s "exit_point").getD .none) = true)
    (hs : ∀ p, sink p = .ok ()) :
    validateCore ar s = .ok ⟨true, ""⟩ ∧
    execute_strategy ar sink now s =
      ⟨.ok true,
       [⟨(sget s "symbol").getD .none, (sget s "entry_point").getD .none,
         (sget s "exit_point").getD .none, now⟩],
       [⟨(sget s "symbol").getD .none, (sget s "entry_point").getD .none,
         (sget s "exit_point").getD .none, now⟩],
       ["Executed strategy successfully at " ++ now ++ "."]⟩ := by
  have hvc : validateCore ar s = .ok ⟨true, ""⟩ := by
    simp [validateCore, hf, hd, hr]
  refine ⟨hvc, ?_⟩
  unfold execute_strategy validate
  rw [hvc]
  simp [prepare_execution_params, hsy, hep, hxp, hs]

/-- Claim C2 amended witness -/
theorem valid_truthy_strategy_executes_once_witness :
    validateCore arAccept sAAPL = .ok ⟨true, ""⟩ ∧
    execute_strategy arAccept sinkOk "T" sAAPL =
      ⟨.ok true,
       [⟨(sget sAAPL "symbol").getD .none, (sget sAAPL "entry_point").getD .none,
         (sget sAAPL "exit_point").getD .none, "T"⟩],
       [⟨(sget sAAPL "symbol").getD .none, (sget sAAPL "entry_point").getD .none,
         (sget sAAPL "exit_point").getD .none, "T"⟩],
       ["Executed strategy successfully at " ++ "T" ++ "."]⟩ :=
  valid_truthy_strategy_executes_once arAccept sinkOk "T" sAAPL
    (by decide) (by decide) rfl (by decide) (by decide) (by decide) (fun _ => rfl)

/-- Claim C3 counterexample -/
theorem none_entry_point_raises_type_error :
    has_required_fields sNoneEntry = true ∧
    validateCore arAccept sNoneEntry =
      .error (.typeError "float() argument must be a string or a real number") ∧
    validateCore arAccept sNoneEntry ≠ .ok ⟨false, "Data type validation failed."⟩ := by
  decide

/-- Claim C3 amended -/
theorem data_type_failure_message
    (ar : Strategy → Except PyExc Bool) (s : Strategy)
    (hf : has_required_fields s = true)
    (hcase :
      (∃ t, sget s "entry_point" = some (.str t) ∧ parseFloat t = Option.none)
      ∨ ((∃ q, pyFloat ((sget s "entry_point").getD .none) = .ok q) ∧
         (∃ t, sget s "exit_point" = some (.str t) ∧ parseFloat t = Option.none))
      ∨ ((∃ q, pyFloat ((sget s "entry_point").getD .none) = .ok q) ∧
         (∃ q, pyFloat ((sget s "exit_point").getD .none) = .ok q) ∧
         (∃ q, sget s "risk_tolerance" = some (.num q) ∧ ¬(0 ≤ q ∧ q ≤ 1)))) :
    validateCore ar s = .ok ⟨false, "Data type validation failed."⟩ := by
  rcases hcase with ⟨t, het, hpt⟩ | ⟨⟨q₁, hq₁⟩, ⟨t, hxt, hpt⟩⟩ | ⟨⟨q₁, hq₁⟩, ⟨q₂, hq₂⟩, ⟨q, hrt, hq⟩⟩
  · have hvdt : validate_data_types s = .ok false := by
      unfold validate_data_types vdtBody dictIndex
      rw [het]
      simp [pyFloat, hpt]
    simp [validateCore, hf, hvdt]
  · cases hE : sget s "entry_point" with
    | none => rw [hE] at hq₁; simp [pyFloat] at hq₁
    | some vep =>
      rw [hE] at hq₁
      simp only [Option.getD_some] at hq₁
      have hpe : pyFloat (.str t) =
          .error (.valueError ("could not convert string to float: " ++ t)) := by
        simp [pyFloat, hpt]
      have hvdt : validate_data_types s = .ok false := by
        simp only [validate_data_types, vdtBody, dictIndex, hE, hxt, hq₁, hpe]
      simp [validateCore, hf, hvdt]
  · cases hE : sget s "entry_point" with
    | none => rw [hE] at hq₁; simp [pyFloat] at hq₁
    | some vep =>
      rw [hE] at hq₁
      simp only [Option.getD_some] at hq₁
      cases hX : sget s "exit_point" with
      | none => rw [hX] at hq₂; simp [pyFloat] at hq₂
      | some vxp =>
        rw [hX] at hq₂
        simp only [Option.getD_some] at hq₂
        have hrisk : pyLeZeroOne (.num q) = .ok false := by
          simp only [pyLeZeroOne, Except.ok.injEq, decide_eq_false_iff_not]
          exact hq
        have hvdt : validate_data_types s = .ok false := by
          simp only [validate_data_types, vdtBody, dictIndex, hE, hX, hrt, hq₁, hq₂, hrisk]
        simp [validateCore, hf, hvdt]

/-- Claim C3 amended witness -/
theorem data_type_failure_message_witness :
    has_required_fields sAbc = true ∧
    validateCore arAccept sAbc = .ok ⟨false, "Data type validation failed."⟩ :=
  ⟨by decide, data_type_failure_message arAccept sAbc (by decide)
    (Or.inl ⟨"abc", by decide, by decide⟩)⟩

theorem absentOrFalsy_iff (s : Strategy) (k : String) :
    absentOrFalsy s k ↔ truthy ((sget s k).getD .none) = false := by
  cases h : sget s k with
  | none => simp [absentOrFalsy, h, truthy]
  | some v => simp [absentOrFalsy, h]

/-- Claim C5 -/
theorem prepare_params_raises_iff (now : String) (s : Strategy) :
    ((absentOrFalsy s "symbol" ∨ absentOrFalsy s "entry_point" ∨ absentOrFalsy s "exit_point") ↔
      prepare_execution_params now s =
        .error (.valueError "Missing required parameters in strategy.")) ∧
    (¬ (absentOrFalsy s "symbol" ∨ absentOrFalsy s "entry_point" ∨ absentOrFalsy s "exit_point") →
      prepare_execution_params now s =
        .ok ⟨(sget s "symbol").getD .none, (sget s "entry_point").getD .none,
             (sget s "exit_point").getD .none, now⟩) := by
  rw [absentOrFalsy_iff, absentOrFalsy_iff, absentOrFalsy_iff]
  unfold prepare_execution_params
  rcases h₁ : truthy ((sget s "symbol").getD .none) <;>
    rcases h₂ : truthy ((sget s "entry_point").getD .none) <;>
    rcases h₃ : truthy ((sget s "exit_point").getD .none) <;>
    simp [h₁, h₂, h₃]

/-- Claim C5 witness -/
theorem prepare_params_raises_iff_witness :
    ¬ (absentOrFalsy sAAPL "symbol" ∨ absentOrFalsy sAAPL "entry_point" ∨
        absentOrFalsy sAAPL "exit_point") ∧
    prepare_execution_params "T" sAAPL =
      .ok ⟨(sget sAAPL "symbol").getD .none, (sget sAAPL "entry_point").getD .none,
           (sget sAAPL "exit_point").getD .none, "T"⟩ := by
  have hn : ¬ (absentOrFalsy sAAPL "symbol" ∨ absentOrFalsy sAAPL "entry_point" ∨
      absentOrFalsy sAAPL "exit_point") := by
    rw [absentOrFalsy_iff, absentOrFalsy_iff, absentOrFalsy_iff]
    decide
  exact ⟨hn, (prepare_params_raises_iff "T" sAAPL).2 hn⟩

/-- Claim C6: an exception raised by parameter preparation, by the sink,
or inside the validator is logged and re-raised to the caller (the
orchestrator never converts it into a returned boolean), and a returned
`false` arises only from a validator rejection. -/
theorem exceptions_logged_and_reraised
    (ar : Strategy → Except PyExc Bool) (sink : ExecutionParams → Except PyExc Unit)
    (now : String) (s : Strategy) :
    (∀ e r, validateCore ar s = .ok r → r.is_valid = true →
      prepare_execution_params now s = .error e →
      (execute_strategy ar sink now s).result = .error e ∧
      ("Exception occurred during strategy execution: " ++ excMsg e) ∈
        (execute_strategy ar sink now s).logs) ∧
    (∀ e r p, validateCore ar s = .ok r → r.is_valid = true →
      prepare_execution_params now s = .ok p → sink p = .error e →
      (execute_strategy ar sink now s).result = .error e ∧
      ("Exception occurred during strategy execution: " ++ excMsg e) ∈
        (execute_strategy ar sink now s).logs) ∧
    (∀ e, validateCore ar s = .error e →
      validate ar s = (.error e, ["Validation error: " ++ excMsg e]) ∧
      (execute_strategy ar sink now s).result = .error e ∧
      ("Exception occurred during strategy execution: " ++ excMsg e) ∈
        (execute_strategy ar sink now s).logs) ∧
    ((execute_strategy ar sink now s).result = .ok false →
      ∃ m, validateCore ar s = .ok ⟨false, m⟩) := by
  cases hv : validateCore ar s with
  | error e₀ =>
    have hval : validate ar s = (.error e₀, ["Validation error: " ++ excMsg e₀]) := by
      simp [validate, hv]
    have hx : execute_strategy ar sink now s =
        ⟨.error e₀, [], [], ["Validation error: " ++ excMsg e₀,
          "Exception occurred during strategy execution: " ++ excMsg e₀]⟩ := by
      simp [execute_strategy, hval]
    refine ⟨?_, ?_, ?_, ?_⟩
    · intro e r hok
      simp at hok
    · intro e r p hok
      simp at hok
    · intro e he
      injection he with h
      subst h
      exact ⟨hval, by rw [hx], by rw [hx]; simp⟩
    · rw [hx]
      intro h
      simp at h
  | ok r =>
    obtain ⟨b, m⟩ := r
    have hval : validate ar s = (.ok ⟨b, m⟩, []) := by
      simp [validate, hv]
    cases b with
    | false =>
      have hx : execute_strategy ar sink now s =
          ⟨.ok false, [], [], ["Strategy validation failed. " ++ m]⟩ := by
        simp [execute_strategy, hval]
      refine ⟨?_, ?_, ?_, fun _ => ⟨m, rfl⟩⟩
      · intro e r hok hvalid
        injection hok with h
        subst h
        simp at hvalid
      · intro e r p hok hvalid
        injection hok with h
        subst h
        simp at hvalid
      · intro e he
        simp at he
    | true =>
      cases hp : prepare_execution_params now s with
      | error e₁ =>
        have hx : execute_strategy ar sink now s =
            ⟨.error e₁, [], [],
             ["Exception occurred during strategy execution: " ++ excMsg e₁]⟩ := by
          simp [execute_strategy, hval, hp]
        refine ⟨?_, ?_, ?_, ?_⟩
        · intro e r hok hvalid hpe
          injection hpe with h
          subst h
          exact ⟨by rw [hx], by rw [hx]; simp⟩
        · intro e r p hok hvalid hpe
          simp at hpe
        · intro e he
          simp at he
        · rw [hx]
          intro h
          simp at h
      | ok p₀ =>
        cases hs : sink p₀ with
        | error e₂ =>
          have hx : execute_strategy ar sink now s =
              ⟨.error e₂, [p₀], [p₀],
               ["Exception occurred during strategy execution: " ++ excMsg e₂]⟩ := by
            simp [execute_strategy, hval, hp, hs]
          refine ⟨?_, ?_, ?_, ?_⟩
          · intro e r hok hvalid hpe
            simp at hpe
          · intro e r p hok hvalid hpe hse
            injection hpe with h
            subst h
            rw [hs] at hse
            injection hse with h₂
            subst h₂
            exact ⟨by rw [hx], by rw [hx]; simp⟩
          · intro e he
            simp at he
          · rw [hx]
            intro h
            simp at h
        | ok u =>
          have hx : execute_strategy ar sink now s =
              ⟨.ok true, [p₀], [p₀],
               ["Executed strategy successfully at " ++ now ++ "."]⟩ := by
            simp [execute_strategy, hval, hp, hs]
          refine ⟨?_, ?_, ?_, ?_⟩
          · intro e r hok hvalid hpe
            simp at hpe
          · intro e r p hok hvalid hpe hse
            injection hpe with h
            subst h
            rw [hs] at hse
            simp at hse
          · intro e he
            simp at he
          · rw [hx]
            intro h
            simp at h

/-- Claim C6 witness: the prepare-raises case (empty symbol), the
sink-raises case, and the validator-raises case, each at a concrete
input. -/
theorem exceptions_logged_and_reraised_witness :
    ((execute_strategy arAccept sinkOk "T" sEmptySymbol).result =
        .error (.valueError "Missing required parameters in strategy.") ∧
      ("Exception occurred during strategy execution: " ++
        excMsg (.valueError "Missing required parameters in strategy.")) ∈
        (execute_strategy arAccept sinkOk "T" sEmptySymbol).logs) ∧
    ((execute_strategy arAccept sinkBoom "T" sAAPL).result = .error (.other "sink down") ∧
      ("Exception occurred during strategy execution: " ++ excMsg (.other "sink down")) ∈
        (execute_strategy arAccept sinkBoom "T" sAAPL).logs) ∧
    (validate arRaise sAAPL =
        (.error (.other "boom"), ["Validation error: " ++ excMsg (.other "boom")]) ∧
      (execute_strategy arRaise sinkOk "T" sAAPL).result = .error (.other "boom") ∧
      ("Exception occurred during strategy execution: " ++ excMsg (.other "boom")) ∈
        (execute_strategy arRaise sinkOk "T" sAAPL).logs) := by
  refine ⟨?_, ?_, ?_⟩
  · exact (exceptions_logged_and_reraised arAccept sinkOk "T" sEmptySymbol).1
      (.valueError "Missing required parameters in strategy.") ⟨true, ""⟩
      (by decide) rfl (by decide)
  · exact (exceptions_logged_and_reraised arAccept sinkBoom "T" sAAPL).2.1
      (.other "sink down") ⟨true, ""⟩ ⟨.str "AAPL", .str "100.0", .str "110.0", "T"⟩
      (by decide) rfl (by decide) rfl
  · exact (exceptions_logged_and_reraised arRaise sinkOk "T" sAAPL).2.2.1
      (.other "boom") (by decide)

/-- Claim C7 -/
theorem params_only_after_valid
    (ar : Strategy → Except PyExc Bool) (sink : ExecutionParams → Except PyExc Unit)
    (now : String) (s : Strategy)
    (h : (execute_strategy ar sink now s).prepared ≠ []) :
    ∃ r, validateCore ar s = .ok r ∧ r.is_valid = true := by
  cases hv : validateCore ar s with
  | error e₀ =>
    exfalso
    apply h
    simp [execute_strategy, validate, hv]
  | ok r =>
    rcases hb : r.is_valid with _ | _
    · exfalso
      apply h
      simp [execute_strategy, validate, hv, hb]
    · exact ⟨r, rfl, hb⟩

/-- Claim C7 witness -/
theorem params_only_after_valid_witness :
    (execute_strategy arAccept sinkOk "T" sAAPL).prepared ≠ [] ∧
    ∃ r, validateCore arAccept sAAPL = .ok r ∧ r.is_valid = true :=
  ⟨by decide, params_only_after_valid arAccept sinkOk "T" sAAPL (by decide)⟩

/-- Claim C8 -/
theorem validate_deterministic_extensional
    (ar : Strategy → Except PyExc Bool) (s₁ s₂ : Strategy)
    (hs : ∀ k, sget s₁ k = sget s₂ k) (har : ar s₁ = ar s₂) :
    validate ar s₁ = validate ar s₂ := by
  have h1 : has_required_fields s₁ = has_required_fields s₂ := by
    simp [has_required_fields, hs]
  have h2 : vdtBody s₁ = vdtBody s₂ := by
    simp [vdtBody, dictIndex, hs]
  have h3 : validate_data_types s₁ = validate_data_types s₂ := by
    simp [validate_data_types, h2]
  simp [validate, validateCore, h1, h3, har]

/-- Claim C8 witness -/
theorem validate_deterministic_extensional_witness :
    validate arAccept sAAPL = validate arAccept sAAPLShadow :=
  validate_deterministic_extensional arAccept sAAPL sAAPLShadow
    (by
      intro k
      simp only [sAAPL, sAAPLShadow, List.cons_append, List.nil_append, sget]
      split_ifs <;> rfl)
    rfl

theorem has_required_fieldsT_eq (s : Strategy) :
    has_required_fieldsT s = (has_required_fields s, s) := by
  simp [has_required_fieldsT, sgetT, has_required_fields, Bool.and_assoc]

theorem vdtBodyT_eq (s : Strategy) : vdtBodyT s = (vdtBody s, s) := by
  unfold vdtBodyT vdtBody dictIndexT dictIndex sgetT
  rcases hE : sget s "entry_point" with _ | vep
  · rfl
  · simp only [hE]
    rcases hF : pyFloat vep with e | q
    · rfl
    · simp only [hF]
      rcases hX : sget s "exit_point" with _ | vxp
      · rfl
      · simp only [hX]
        rcases hG : pyFloat vxp with e | q₂
        · rfl
        · simp only [hG]
          rcases hR : sget s "risk_tolerance" with _ | vrt
          · rfl
          · simp only [hR]
            rcases hL : pyLeZeroOne vrt with e | b
            · rfl
            · cases b <;> rfl

theorem validate_data_typesT_eq (s : Strategy) :
    validate_data_typesT s = (validate_data_types s, s) := by
  unfold validate_data_typesT validate_data_types
  rw [vdtBodyT_eq]

theorem validateT_eq (ar : Strategy → Except PyExc Bool) (s : Strategy) :
    validateT ar s = (validateCore ar s, s) := by
  unfold validateT validateCore
  simp only [has_required_fieldsT_eq, validate_data_typesT_eq]
  by_cases hf : has_required_fields s
  · rw [hf]
    rcases hD : validate_data_types s with e | b
    · rfl
    · cases b
      · rfl
      · rcases hA : ar s with e | b₂
        · rfl
        · cases b₂ <;> rfl
  · rw [Bool.not_eq_true] at hf
    rw [hf]
    rfl

theorem prepare_execution_paramsT_eq (now : String) (s : Strategy) :
    prepare_execution_paramsT now s = (prepare_execution_params now s, s) := rfl

theorem execute_strategyT_eq (ar : Strategy → Except PyExc Bool)
    (sink : ExecutionParams → Except PyExc Unit) (now : String) (s : Strategy) :
    execute_strategyT ar sink now s = (execute_strategy ar sink now s, s) := by
  unfold execute_strategyT execute_strategy validate
  simp only [validateT_eq, prepare_execution_paramsT_eq]
  rcases hv : validateCore ar s with e | r
  · rfl
  · simp only [hv]
    rcases hb : r.is_valid with _ | _
    · rfl
    · rcases hp : prepare_execution_params now s with e | p
      · rfl
      · simp only [hp]
        rcases hs₂ : sink p with e | u
        · rfl
        · rfl

/-- Claim C9 -/
theorem strategy_not_mutated
    (ar : Strategy → Except PyExc Bool) (sink : ExecutionParams → Except PyExc Unit)
    (now : String) (s : Strategy) :
    (validateT ar s).2 = s ∧ (execute_strategyT ar sink now s).2 = s := by
  rw [validateT_eq, execute_strategyT_eq]
  exact ⟨rfl, rfl⟩
